import Mathlib

/-!
Verification of the RADStrat dual-provider STT and scoring pipeline.

This file shallowly embeds the scoring engine (radio-transcript
normalization, fluency, overall weighting), the connection-pool store,
the session-store timeout bodies of the dual-STT hook, the ElevenLabs
adapter transcript handlers, and the OpenAI chat-scoring entry point,
and proves the testable properties stated in the specification.

Strings are modelled as `List Char`; the regex-based rewriting of
`radioNormalize.ts` is embedded by explicit left-to-right scanners that
mirror JavaScript `String.prototype.replace` with a global regex
(scan positions left to right, on a match emit the replacement and
resume after the matched text of the source, replacements are never
rescanned).  All text reaching the scanners inside
`normalizeRadioTranscript` has already been lowercased (step 1 of the
source, and `expandCompoundNumbers` lowercases again), so the `i` flag
of the source regexes is realized by matching lowercase literals.
-/

namespace RADStrat

set_option maxRecDepth 100000

/-- JS word character for `\b` boundaries: `[A-Za-z0-9_]`. -/
def jsWordChar (c : Char) : Bool :=
  (('a' ≤ c && c ≤ 'z') || ('A' ≤ c && c ≤ 'Z') || ('0' ≤ c && c ≤ '9') || c = '_')

/-- JS whitespace class `\s` restricted to the ASCII range. -/
def jsSpaceChar (c : Char) : Bool :=
  (c = ' ' || c = '\t' || c = '\n' || c = '\r' || c = '\x0b' || c = '\x0c')

/-- ASCII lowercasing, the effect of JS `toLowerCase` on ASCII text. -/
def asciiLower (c : Char) : Char :=
  if 'A' ≤ c && c ≤ 'Z' then Char.ofNat (c.toNat + 32) else c

/-- Whether an optional character (string edge = `none`) is a word character. -/
def optWord : Option Char → Bool
  | none => false
  | some c => jsWordChar c

/-- A `\b` boundary holds between two positions iff exactly one side is a word
character (a string edge counts as non-word). -/
def boundary (a b : Option Char) : Bool :=
  optWord a != optWord b

/-- Does `w` occur at the head of `l`? -/
def startsList : List Char → List Char → Bool
  | [], _ => true
  | _ :: _, [] => false
  | w :: ws, c :: cs => w = c && startsList ws cs

/-- A matcher attempts a regex match at the current position.  It sees the
character just before the position (for `\b`) and the rest of the text, and
returns the matched length (always ≥ 1 for the patterns embedded here)
together with the replacement text. -/
def Matcher : Type :=
  Option Char → List Char → Option (Nat × List Char)

/-- Scanner core for global regex replacement, structurally recursive on a
fuel argument (one unit per source position, enough because every match
consumes at least one character). -/
def replaceGo (m : Matcher) : Nat → Option Char → List Char → List Char
  | _, _, [] => []
  | 0, _, l => l
  | Nat.succ fuel, prev, c :: cs =>
    match m prev (c :: cs) with
    | some (n, rep) =>
      let matched := List.take n (c :: cs)
      rep ++ replaceGo m fuel (matched.getLast?.orElse fun _ => prev) (List.drop (n - 1) cs)
    | none => c :: replaceGo m fuel (some c) cs

/-- JS `text.replace(re, f)` with a global regex, for the matchers used here. -/
def replaceAll (m : Matcher) (l : List Char) : List Char :=
  replaceGo m l.length none l

/-- JS `String.prototype.trim` (ASCII whitespace). -/
def jsTrim (l : List Char) : List Char :=
  ((l.dropWhile jsSpaceChar).reverse.dropWhile jsSpaceChar).reverse

/-- Matcher for `\s+` (used to collapse whitespace runs to one space). -/
def wsMatch : Matcher := fun _ l =>
  let n := (l.takeWhile jsSpaceChar).length
  if n = 0 then none else some (n, [' '])

/-- Collapse every whitespace run to a single space: `replace(/\s+/g, ' ')`. -/
def collapseWs (l : List Char) : List Char :=
  replaceAll wsMatch l

/-! ### Number mappings of `radioNormalize.ts` -/

/-- `DIGIT_TO_WORD`: single digit to word. -/
def digitWord (c : Char) : Option (List Char) :=
  if c = '0' then some "zero".data
  else if c = '1' then some "one".data
  else if c = '2' then some "two".data
  else if c = '3' then some "three".data
  else if c = '4' then some "four".data
  else if c = '5' then some "five".data
  else if c = '6' then some "six".data
  else if c = '7' then some "seven".data
  else if c = '8' then some "eight".data
  else if c = '9' then some "nine".data
  else none

/-- `WORD_TO_DIGIT` entries in object insertion order (zero … nine, niner). -/
def wordDigitEntries : List (List Char × Char) :=
  [("zero".data, '0'), ("one".data, '1'), ("two".data, '2'), ("three".data, '3'),
   ("four".data, '4'), ("five".data, '5'), ("six".data, '6'), ("seven".data, '7'),
   ("eight".data, '8'), ("nine".data, '9'), ("niner".data, '9')]

/-- `WORD_TO_DIGIT` lookup. -/
def wordToDigit (w : List Char) : Option Char :=
  (wordDigitEntries.find? fun e => e.1 = w).map Prod.snd

/-- `COMPOUND_NUMBERS` entries in object insertion order (ten … nineteen,
twenty … ninety). -/
def compoundEntries : List (List Char × List Char) :=
  [("ten".data, "one zero".data), ("eleven".data, "one one".data),
   ("twelve".data, "one two".data), ("thirteen".data, "one three".data),
   ("fourteen".data, "one four".data), ("fifteen".data, "one five".data),
   ("sixteen".data, "one six".data), ("seventeen".data, "one seven".data),
   ("eighteen".data, "one eight".data), ("nineteen".data, "one nine".data),
   ("twenty".data, "two zero".data), ("thirty".data, "three zero".data),
   ("forty".data, "four zero".data), ("fifty".data, "five zero".data),
   ("sixty".data, "six zero".data), ("seventy".data, "seven zero".data),
   ("eighty".data, "eight zero".data), ("ninety".data, "nine zero".data)]

/-- `COMPOUND_NUMBERS` lookup. -/
def compoundLookup (w : List Char) : Option (List Char) :=
  (compoundEntries.find? fun e => e.1 = w).map Prod.snd

/-- The tens alternatives of the compound regex, in alternation order. -/
def tensWords : List (List Char) :=
  ["twenty".data, "thirty".data, "forty".data, "fifty".data,
   "sixty".data, "seventy".data, "eighty".data, "ninety".data]

/-- The ones alternatives of the compound regex, in alternation order. -/
def onesWords : List (List Char) :=
  ["one".data, "two".data, "three".data, "four".data, "five".data,
   "six".data, "seven".data, "eight".data, "nine".data]

/-- `CALLSIGN_PREFIXES`, in array order (these build the regex alternation). -/
def callsignWords : List (List Char) :=
  ["bowser".data, "shepherd".data, "hotel".data, "alpha".data, "bravo".data,
   "charlie".data, "delta".data, "echo".data, "foxtrot".data, "golf".data,
   "india".data, "juliet".data, "kilo".data, "lima".data, "mike".data,
   "november".data, "oscar".data, "papa".data, "quebec".data, "romeo".data,
   "sierra".data, "tango".data, "uniform".data, "victor".data, "whiskey".data,
   "xray".data, "x-ray".data, "yankee".data, "zulu".data, "fire".data,
   "security".data, "afe".data, "contractor".data]

/-- `digitsToSpoken`: each digit becomes its word, joined by single spaces
(a non-digit character would be kept as itself, per `DIGIT_TO_WORD[d] || d`). -/
def digitsToSpoken : List Char → List Char
  | [] => []
  | [c] => (digitWord c).getD [c]
  | c :: cs => (digitWord c).getD [c] ++ ' ' :: digitsToSpoken cs

/-! ### Matchers for the individual regexes -/

/-- First alternative of an alternation that matches at the head of `l`.
No alternative used in this file is a strict prefix of a sibling that can
also match, so first-match equals the ordered-alternation choice of the regex. -/
def findAlt (alts : List (List Char)) (l : List Char) : Option (List Char) :=
  alts.find? fun w => startsList w l

/-- Matcher for `\bw\b` with literal replacement (used by the standalone
compound loop, the word → digit-word pass, and `\batc\b`). -/
def wordMatch (w rep : List Char) : Matcher := fun prev l =>
  if !optWord prev && startsList w l && !optWord ((l.drop w.length).head?) then
    some (w.length, rep)
  else none

/-- Replacement for the tens-plus-ones branch:
`WORD_TO_DIGIT[ones] || ones` then `DIGIT_TO_WORD[onesDigit] || onesDigit`. -/
def onesCanon (o : List Char) : List Char :=
  let onesDigit : List Char :=
    match wordToDigit o with
    | some d => [d]
    | none => o
  match onesDigit with
  | [d] => (digitWord d).getD onesDigit
  | _ => onesDigit

/-- Matcher for the compound tens regex
`\b(twenty|thirty|forty|fifty|sixty|seventy|eighty|ninety)\s*(one|…|nine)?\b`
with the replacer of `expandCompoundNumbers`.  Backtracking of `\s*` and the
optional ones group is resolved exactly as the regex engine does: greedy
whitespace first, then the ones group, then the empty ones group, and if the
final `\b` still fails the whitespace is given back entirely (intermediate
amounts put the boundary between two spaces, which never succeeds). -/
def tensMatch : Matcher := fun prev l =>
  if optWord prev then none else
  match findAlt tensWords l with
  | none => none
  | some t =>
    let rest1 := l.drop t.length
    let ws := (rest1.takeWhile jsSpaceChar).length
    let rest2 := rest1.drop ws
    let tensDigit := (compoundLookup t).getD t
    let tensFirst := tensDigit.takeWhile (fun c => c ≠ ' ')
    let emptyOnes : Option (Nat × List Char) :=
      if ws = 0 then
        if optWord rest2.head? then none else some (t.length, tensDigit)
      else if optWord rest2.head? then some (t.length + ws, tensDigit)
      else some (t.length, tensDigit)
    match findAlt onesWords rest2 with
    | some o =>
      if optWord ((rest2.drop o.length).head?) then emptyOnes
      else some (t.length + ws + o.length, tensFirst ++ ' ' :: onesCanon o)
    | none => emptyOnes

/-- Matcher for `\b(alt|…)\s*(\d+)\b` (callsign, runway and
heading/altitude/squawk patterns), with the replacement built from the
matched alternative and the digit run. -/
def wordNumMatch (alts : List (List Char))
    (mkRep : List Char → List Char → List Char) : Matcher := fun prev l =>
  if optWord prev then none else
  match findAlt alts l with
  | none => none
  | some p =>
    let rest1 := l.drop p.length
    let ws := (rest1.takeWhile jsSpaceChar).length
    let rest2 := rest1.drop ws
    let ds := rest2.takeWhile Char.isDigit
    if ds.length = 0 then none
    else if optWord ((rest2.drop ds.length).head?) then none
    else some (p.length + ws + ds.length, mkRep p ds)

/-- Matcher for `\btaxiway\s*([a-z])\s*(\d+)\b` (the `i` flag is realized by
the text being lowercase at this stage). -/
def taxiwayMatch : Matcher := fun prev l =>
  if optWord prev then none else
  if !startsList "taxiway".data l then none else
  let rest1 := l.drop "taxiway".data.length
  let ws1 := (rest1.takeWhile jsSpaceChar).length
  match (rest1.drop ws1).head? with
  | none => none
  | some letter =>
    if !('a' ≤ letter && letter ≤ 'z') then none else
    let rest2 := (rest1.drop ws1).drop 1
    let ws2 := (rest2.takeWhile jsSpaceChar).length
    let rest3 := rest2.drop ws2
    let ds := rest3.takeWhile Char.isDigit
    if ds.length = 0 then none
    else if optWord ((rest3.drop ds.length).head?) then none
    else
      some ("taxiway".data.length + ws1 + 1 + ws2 + ds.length,
        "taxiway ".data ++ letter :: ' ' :: digitsToSpoken ds)

/-- Consume `\s+wᵢ` for each remaining word of a phrase regex, returning the
length consumed (greedy `\s+` needs no backtracking here: giving whitespace
back puts a letter where whitespace is required). -/
def seqTail : List (List Char) → List Char → Option Nat
  | [], _ => some 0
  | w :: rest, l =>
    let s := (l.takeWhile jsSpaceChar).length
    if s = 0 then none
    else if startsList w (l.drop s) then
      (seqTail rest ((l.drop s).drop w.length)).map fun n => s + w.length + n
    else none

/-- Matcher for a phrase regex `\bw₁\s+w₂\s+…\b` with a fixed replacement. -/
def seqMatch (w : List Char) (ws : List (List Char)) (rep : List Char) :
    Matcher := fun prev l =>
  if optWord prev then none else
  if !startsList w l then none else
  match seqTail ws (l.drop w.length) with
  | none => none
  | some n =>
    let total := w.length + n
    if optWord ((l.drop total).head?) then none else some (total, rep)

/-! ### The normalization stages of `radioNormalize.ts` -/

/-- `expandCompoundNumbers`: lowercase, rewrite the tens regex, then rewrite
each standalone compound word (`\bcompound\b` → spoken) in object order. -/
def expandCompoundNumbers (l : List Char) : List Char :=
  let l := l.map asciiLower
  let l := replaceAll tensMatch l
  compoundEntries.foldl (fun acc e => replaceAll (wordMatch e.1 e.2) acc) l

/-- The standalone word → canonical digit-word pass of
`normalizeRadioNumbers` (`\bword\b` → `DIGIT_TO_WORD[digit]`, entry order). -/
def wordCanonPass (l : List Char) : List Char :=
  wordDigitEntries.foldl
    (fun acc e => replaceAll (wordMatch e.1 ((digitWord e.2).getD [e.2])) acc) l

/-- `normalizeRadioNumbers`: compound expansion, word canonicalization, then
the callsign / runway / taxiway / heading digit-sequence rewrites. -/
def normalizeRadioNumbers (l : List Char) : List Char :=
  let l := expandCompoundNumbers l
  let l := wordCanonPass l
  let l := replaceAll
    (wordNumMatch callsignWords fun p ds => p ++ ' ' :: digitsToSpoken ds) l
  let l := replaceAll
    (wordNumMatch ["runway".data] fun _ ds => "runway ".data ++ digitsToSpoken ds) l
  let l := replaceAll taxiwayMatch l
  let l := replaceAll
    (wordNumMatch ["heading".data, "altitude".data, "squawk".data, "flight level".data]
      fun p ds => p ++ ' ' :: digitsToSpoken ds) l
  l

/-- `removePunctuation`: punctuation to spaces, collapse runs, trim. -/
def removePunctuation (l : List Char) : List Char :=
  let punct : List Char := ['.', ',', ';', ':', '!', '?', Char.ofNat 39, '"']
  jsTrim (collapseWs (l.map fun c => if punct.contains c then ' ' else c))

/-- `normalizeRadioPhrases`: collapse known phrase variants. -/
def normalizeRadioPhrases (l : List Char) : List Char :=
  let l := replaceAll
    (seqMatch "over".data ["and".data, "out".data] "over and out".data) l
  let l := replaceAll (seqMatch "roger".data ["that".data] "roger".data) l
  let l := replaceAll (seqMatch "copy".data ["that".data] "copy".data) l
  let l := replaceAll (seqMatch "ground".data ["control".data] "ground".data) l
  let l := replaceAll (wordMatch "atc".data "atc".data) l
  l

/-- `normalizeHyphens`: hyphens to spaces, collapse whitespace, trim. -/
def normalizeHyphens (l : List Char) : List Char :=
  jsTrim (collapseWs (l.map fun c => if c = '-' then ' ' else c))

/-- `normalizeRadioTranscript`, the main normalization entry point. -/
def normalizeRadioTranscript (s : String) : String :=
  if s = "" then "" else
  let l := s.data.map asciiLower
  let l := normalizeHyphens l
  let l := normalizeRadioNumbers l
  let l := normalizeRadioPhrases l
  let l := removePunctuation l
  String.mk (jsTrim (collapseWs l))

/-! ### Scoring engine -/

/-- JS `Math.round` on exact rationals: round half toward positive infinity. -/
def jsRound (x : ℚ) : ℤ :=
  ⌊x + 1/2⌋

/-- `clamp(value, min, max)` from `overall.ts`: `Math.max(min, Math.min(max, value))`. -/
def clampQ (value lo hi : ℚ) : ℚ :=
  max lo (min hi value)

/-- The scoring weights of `overall.ts` (`WEIGHTS`): 0.50 / 0.30 / 0.20. -/
def weightAccuracy : ℚ := 1/2
/-- Fluency weight 0.30. -/
def weightFluency : ℚ := 3/10
/-- Structure weight 0.20. -/
def weightStructure : ℚ := 1/5

/-- `calculateOverall` from `overall.ts`: clamp each input to [0,100], take the
weighted sum, clamp again and round to the nearest integer. -/
def calculateOverall (accuracy fluency structureScore : ℚ) : ℤ :=
  let clampedAccuracy := clampQ accuracy 0 100
  let clampedFluency := clampQ fluency 0 100
  let clampedStructure := clampQ structureScore 0 100
  let weighted := weightAccuracy * clampedAccuracy + weightFluency * clampedFluency
    + weightStructure * clampedStructure
  jsRound (clampQ weighted 0 100)

/-- Split a lowercased character list into maximal word-character runs. -/
def splitWordsGo : List Char → List Char → List (List Char)
  | [], acc => if acc = [] then [] else [acc.reverse]
  | c :: cs, acc =>
    if jsWordChar c then splitWordsGo cs (c :: acc)
    else if acc = [] then splitWordsGo cs []
    else acc.reverse :: splitWordsGo cs []

/-- The word tokens of a string (lowercased, split at non-word characters). -/
def wordsOf (s : String) : List (List Char) :=
  splitWordsGo (s.data.map asciiLower) []

/-- A detected filler word and how often it occurred (`FillerCount`). -/
structure FillerCount where
  word : String
  count : Nat
deriving Repr, DecidableEq

/-- Modelled from the spec: the fixed filler vocabulary of `fillers.ts`
(the file itself is not part of the sources; the PRD lists
"uh/um/mm/er/ah…" and the spec requires a fixed vocabulary). -/
def fillerVocabulary : List String :=
  ["uh", "um", "mm", "er", "ah"]

/-- Modelled from the spec: `detectFillers` counts, per vocabulary entry, the
whole-word occurrences of the filler in the transcript and reports the
entries that occurred at least once. -/
def detectFillers (transcript : String) : List FillerCount :=
  let tokens := wordsOf transcript
  fillerVocabulary.filterMap fun w =>
    let c := tokens.count w.data
    if c = 0 then none else some ⟨w, c⟩

/-- Modelled from the spec: `countTotalFillers` sums the per-word counts. -/
def countTotalFillers (fillers : List FillerCount) : Nat :=
  (fillers.map FillerCount.count).sum

/-- The breakdown object returned by `calculateFluency` (`FluencyBreakdown`). -/
structure FluencyBreakdown where
  fillerPenalty : Nat
  fillers : List FillerCount
  totalFillers : Nat
deriving Repr, DecidableEq

/-- `calculateFluency` from `fluency.ts`: detect fillers, penalty is
`min(50, totalFillers * 5)`, score is `100 - penalty`. -/
def calculateFluency (transcript : String) : ℤ × FluencyBreakdown :=
  let fillers := detectFillers transcript
  let totalFillers := countTotalFillers fillers
  let fillerPenalty := min 50 (totalFillers * 5)
  let score : ℤ := 100 - fillerPenalty
  (score, ⟨fillerPenalty, fillers, totalFillers⟩)

/-- The fluency formula exactly as the specification words it:
`100 − min(50, 5 × fillerCount)`. -/
def specFluencyScore (fillerCount : Nat) : ℤ :=
  100 - min 50 (5 * (fillerCount : ℤ))

/-- One row update of the Levenshtein dynamic program. -/
def levRowGo (a : Char) : List Char → List Nat → Nat → List Nat
  | [], _, _ => []
  | b :: bs, prev, lastNew =>
    match prev with
    | [] => []
    | diag :: prest =>
      let up := prest.headD 0
      let cost := if a = b then 0 else 1
      let newv := min (diag + cost) (min (up + 1) (lastNew + 1))
      newv :: levRowGo a bs prest newv

/-- Next full row of the Levenshtein dynamic program. -/
def levRow (a : Char) (bs : List Char) (prev : List Nat) : List Nat :=
  let first := prev.headD 0 + 1
  first :: levRowGo a bs prev first

/-- Levenshtein edit distance between two character lists. -/
def levenshtein (as bs : List Char) : Nat :=
  (as.foldl (fun row a => levRow a bs row) (List.range (bs.length + 1))).getLastD 0

/-- Modelled from the spec: `calculateSimilarity` from `similarity.ts` (not in
the sources) is "a normalized string-similarity ratio (0–1)"; the PRD names
normalized Levenshtein similarity, `1 − distance / max(length)`, with equal
(including both-empty) strings scoring 1. -/
def calculateSimilarity (a b : String) : ℚ :=
  let maxLen := max a.data.length b.data.length
  if maxLen = 0 then 1
  else 1 - (levenshtein a.data b.data : ℚ) / (maxLen : ℚ)

/-- The breakdown object returned by `calculateAccuracy` (`AccuracyBreakdown`). -/
structure AccuracyBreakdown where
  similarityScore : ℚ
  normalizedTranscript : String
  normalizedExpected : String
deriving Repr, DecidableEq

/-- `calculateAccuracy` from `accuracy.ts`: normalize both texts, compute the
similarity ratio, and scale it to 0–100 by rounding. -/
def calculateAccuracy (transcript expected : String) : ℤ × AccuracyBreakdown :=
  let normalizedTranscript := normalizeRadioTranscript transcript
  let normalizedExpected := normalizeRadioTranscript expected
  let similarityScore := calculateSimilarity normalizedTranscript normalizedExpected
  (jsRound (similarityScore * 100),
    ⟨similarityScore, normalizedTranscript, normalizedExpected⟩)

/-- The structure grammar modes (`StructureMode`). -/
inductive StructureMode where
  | full
  | ackShort
  | clarifyRequest
deriving Repr, DecidableEq

/-- Does the token sequence `pat` occur consecutively inside `ws`? -/
def containsSeq (ws : List (List Char)) (pat : List (List Char)) : Bool :=
  match ws with
  | [] => pat = []
  | _ :: rest => startsListOfLists pat ws || containsSeq rest pat
where
  startsListOfLists : List (List Char) → List (List Char) → Bool
    | [], _ => true
    | _ :: _, [] => false
    | p :: ps, w :: wss => p = w && startsListOfLists ps wss

/-- Modelled from the spec: the intent/report vocabulary used by the
structure checker (spec §4.4: "intent/message" presence check). -/
def intentVocabulary : List String :=
  ["request", "requesting", "report", "reporting", "holding", "ready",
   "permission", "proceed", "taxi", "say"]

/-- Modelled from the spec: `calculateStructure` from `structure.ts` (not in
the sources).  Per spec §4.4 and the PRD rubric: start from 100 and apply
fixed, named, independently composable deductions chosen by the structure
mode (presence of receiver/sender/intent/closing, clarification phrase,
ordering, closing placement, expected keywords), clamped to [0,100]. -/
def calculateStructure (transcript : String) (mode : StructureMode)
    (expectedKeywords : Option (List String)) : ℤ × List String :=
  let ws := wordsOf transcript
  let hasReceiver := ws.contains "atc".data
  let hasSender := callsignWords.any fun c => ws.contains c
  let closingIdxs := (List.range ws.length).filter fun i =>
    ws.getD i [] = "over".data || ws.getD i [] = "out".data
  let hasClosing := !closingIdxs.isEmpty
  let hasIntent := intentVocabulary.any fun w => ws.contains w.data
  let hasClarify := containsSeq ws ["say".data, "again".data]
  let presence : List (Int × String) :=
    match mode with
    | .full =>
      (if hasReceiver then [] else [(20, "missing_receiver")])
        ++ (if hasSender then [] else [(20, "missing_sender")])
        ++ (if hasIntent then [] else [(30, "missing_intent")])
        ++ (if hasClosing then [] else [(20, "missing_closing")])
    | .ackShort =>
      (if hasIntent then [] else [(50, "missing_intent")])
        ++ (if hasClosing then [] else [(50, "missing_closing")])
    | .clarifyRequest =>
      (if hasReceiver then [] else [(30, "missing_receiver")])
        ++ (if hasClarify then [] else [(40, "missing_clarification")])
        ++ (if hasClosing then [] else [(30, "missing_closing")])
  let receiverIdx := ws.indexOf "atc".data
  let senderIdx := (List.range ws.length).findIdx fun i =>
    callsignWords.any fun c => ws.getD i [] = c
  let order : List (Int × String) :=
    (if hasReceiver && hasSender && senderIdx < receiverIdx then
      [(10, "receiver_after_sender")] else [])
      ++ (if hasClosing && closingIdxs.getLastD 0 + 3 < ws.length then
        [(10, "closing_not_near_end")] else [])
  let phrase : List (Int × String) :=
    if closingIdxs.length > 1 then [(5, "multiple_closings")] else []
  let keywords : List (Int × String) :=
    match expectedKeywords with
    | some (k :: ks) =>
      if (k :: ks).any (fun w => ws.contains (w.data.map asciiLower)) then []
      else [(10, "missing_expected_keywords")]
    | _ => []
  let deductions := presence ++ order ++ phrase ++ keywords
  (min 100 (max 0 (100 - ((deductions.map Prod.fst).sum))),
    deductions.map Prod.snd)

/-! ### Connection pool store (`connectionPoolStore.ts`) -/

/-- An ephemeral provider token (`TokenInfo`). -/
structure TokenInfo where
  token : String
  websocketUrl : String
  expiresAt : Int
deriving Repr, DecidableEq

/-- `TOKEN_REFRESH_BUFFER_MS`: refresh when less than 60 s remain. -/
def TOKEN_REFRESH_BUFFER_MS : Int := 60000

/-- `isTokenExpired`: a missing token counts as expired, otherwise expired once
`Date.now() >= expiresAt - TOKEN_REFRESH_BUFFER_MS`. -/
def isTokenExpired (now : Int) : Option TokenInfo → Bool
  | none => true
  | some t => decide (t.expiresAt - TOKEN_REFRESH_BUFFER_MS ≤ now)

/-- The pool store state (`ConnectionPoolState`).  The two adapter fields are
`true` when the corresponding adapter object is stored (non-null). -/
structure PoolState where
  openaiToken : Option TokenInfo
  elevenlabsToken : Option TokenInfo
  openaiAdapter : Bool
  elevenlabsAdapter : Bool
  isInitializing : Bool
  isReady : Bool
  error : Option String
  reconnectAttempts : Nat
deriving Repr, DecidableEq

/-- The outcomes of the external calls performed by one run of the pool
initialization: the settled result of each token fetch (`none` = rejected)
and whether each adapter `connect()` resolved. -/
structure PoolEnv where
  now : Int
  openaiTokenResult : Option TokenInfo
  elevenlabsTokenResult : Option TokenInfo
  openaiConnectOk : Bool
  elevenlabsConnectOk : Bool
deriving Repr, DecidableEq

/-- The pool `initialize()` action, embedded as a function of the call
environment.  Returns the new state and whether a round of token fetches was
performed.  The two early returns mirror the source guards; the remainder is
the non-throwing path of the `try` block (`Promise.allSettled` never rejects,
and each adapter connection failure is caught in its own `.catch`). -/
def poolInit (env : PoolEnv) (s : PoolState) : PoolState × Bool :=
  if s.isInitializing then (s, false)
  else if s.isReady && !isTokenExpired env.now s.openaiToken
      && !isTokenExpired env.now s.elevenlabsToken then
    (s, false)
  else
    let openaiToken := env.openaiTokenResult
    let elevenlabsToken := env.elevenlabsTokenResult
    let openaiAdapter := openaiToken.isSome && env.openaiConnectOk
    let elevenlabsAdapter := elevenlabsToken.isSome && env.elevenlabsConnectOk
    let hasConnection := openaiAdapter || elevenlabsAdapter
    ({ openaiToken, elevenlabsToken, openaiAdapter, elevenlabsAdapter,
       isInitializing := false,
       isReady := hasConnection,
       error := if hasConnection then none else some "Failed to establish any connections",
       reconnectAttempts := 0 }, true)

/-! ### Session store (`sessionStore.ts`) -/

/-- JS `a || b` on strings: the first operand unless it is empty. -/
def jsOr (a b : String) : String :=
  if a = "" then b else a

/-- The two STT providers (`ProviderId`). -/
inductive ProviderId where
  | openai
  | elevenlabs
deriving Repr, DecidableEq

/-- The recording state machine of the session store (`RecordingState`). -/
inductive RecordingState where
  | idle
  | listening
  | processing
  | completed
deriving Repr, DecidableEq

/-- Per-provider status (`ProviderStatus`). -/
inductive ProviderStatus where
  | idle
  | connecting
  | listening
  | processing
  | completed
  | error
deriving Repr, DecidableEq

/-- Per-provider transcript state (`TranscriptState`). -/
structure Transcript where
  interimText : String
  committedText : String
  finalText : String
deriving Repr, DecidableEq

/-- A word timing entry (`WordTiming`). -/
structure WordTiming where
  word : String
  startMs : Int
  endMs : Int
  confidence : Option ℚ
deriving Repr, DecidableEq

/-- Per-provider metric block (`ProviderMetrics`); `structureScore` embeds the
source field `structure` (a Lean keyword). -/
structure ProviderMetrics where
  accuracy : ℤ
  fluency : ℤ
  structureScore : ℤ
  overall : ℤ
deriving Repr, DecidableEq

/-- The combined per-provider breakdown (`ScoringBreakdown`); the structure
part carries the violations list of the spec-modelled structure stage. -/
structure ScoringBreakdown where
  accuracy : AccuracyBreakdown
  fluency : FluencyBreakdown
  structureViolations : List String
deriving Repr, DecidableEq

/-- A cost estimate entry. -/
structure Cost where
  currency : String
  amount : ℚ
  method : String
deriving Repr, DecidableEq

/-- Per-provider result (`ProviderResult`). -/
structure ProviderResult where
  status : ProviderStatus
  transcript : Transcript
  words : Option (List WordTiming)
  durationMs : Nat
  fillers : List FillerCount
  metrics : Option ProviderMetrics
  breakdown : Option ScoringBreakdown
  cost : Option Cost
  errors : Option (List String)
deriving Repr, DecidableEq

/-- `createInitialProviderResult`. -/
def createInitialProviderResult : ProviderResult where
  status := .idle
  transcript := ⟨"", "", ""⟩
  words := none
  durationMs := 0
  fillers := []
  metrics := none
  breakdown := none
  cost := none
  errors := none

/-- A question of the bank (`Question`); `structureMode` carries the source
default `full` when absent. -/
structure Question where
  prompt : String
  options : List String
  correctIndex : Nat
  expectedSpokenAnswer : Option String
  structureMode : StructureMode
  expectedKeywords : Option (List String)
deriving Repr, DecidableEq

/-- A loaded question bank (`QuestionBank`). -/
structure QuestionBank where
  questions : List Question
deriving Repr, DecidableEq

/-- The test mode (`TestMode`). -/
inductive TestMode where
  | readAloud
  | openEnded
deriving Repr, DecidableEq

/-- The AI scoring result record (`OpenAIScoreResult`); `structureScore`
embeds the source field `structure` (a Lean keyword). -/
structure OpenAIScoreResult where
  accuracy : ℤ
  fluency : ℤ
  structureScore : ℤ
  overall : ℤ
  feedback : String
  fillerWords : List String
  fillerCount : Nat
  radioProtocolNotes : Option String
deriving Repr, DecidableEq

/-- The session store state (`SessionState`). -/
structure SessionState where
  questionBank : Option QuestionBank
  currentQuestionIndex : Nat
  selectedChoiceIndex : Option Nat
  recordingState : RecordingState
  recordingDurationMs : Nat
  recordingStartTime : Option Int
  openaiResult : ProviderResult
  elevenlabsResult : ProviderResult
  testMode : TestMode
  openEndedResult : Option OpenAIScoreResult
  isAIScoring : Bool
deriving Repr, DecidableEq

/-- Read the result slot selected by the provider ternary of the source
(`openaiResult` vs `elevenlabsResult`). -/
def SessionState.result (s : SessionState) : ProviderId → ProviderResult
  | .openai => s.openaiResult
  | .elevenlabs => s.elevenlabsResult

/-- Write the result slot of one provider. -/
def SessionState.setResult (s : SessionState) : ProviderId → ProviderResult → SessionState
  | .openai, r => { s with openaiResult := r }
  | .elevenlabs, r => { s with elevenlabsResult := r }

/-- A partial transcript update as passed to `updateProviderTranscript`. -/
structure TranscriptUpdate where
  interimText : Option String := none
  committedText : Option String := none
  finalText : Option String := none
deriving Repr, DecidableEq

/-- Spread-merge of a partial update into a transcript
(`...currentResult.transcript, ...transcript`). -/
def Transcript.merge (t : Transcript) (u : TranscriptUpdate) : Transcript where
  interimText := u.interimText.getD t.interimText
  committedText := u.committedText.getD t.committedText
  finalText := u.finalText.getD t.finalText

/-- `updateProviderTranscript`. -/
def updateProviderTranscript (p : ProviderId) (u : TranscriptUpdate)
    (s : SessionState) : SessionState :=
  let r := s.result p
  s.setResult p { r with transcript := r.transcript.merge u }

/-- `updateProviderStatus`. -/
def updateProviderStatus (p : ProviderId) (st : ProviderStatus)
    (s : SessionState) : SessionState :=
  s.setResult p { s.result p with status := st }

/-- `setRecordingCompleted`. -/
def setRecordingCompleted (s : SessionState) : SessionState :=
  { s with recordingState := .completed }

/-- `stopRecording` of the session store: only acts while listening, records
the final duration and moves to `processing`. -/
def storeStopRecording (now : Int) (s : SessionState) : SessionState :=
  if s.recordingState ≠ .listening then s
  else
    { s with
      recordingState := .processing,
      recordingDurationMs :=
        match s.recordingStartTime with
        | some t0 => (now - t0).toNat
        | none => 0,
      recordingStartTime := none }

/-- `getCurrentQuestion`. -/
def getCurrentQuestion (s : SessionState) : Option Question :=
  match s.questionBank with
  | none => none
  | some qb =>
    if s.currentQuestionIndex < qb.questions.length then
      qb.questions.get? s.currentQuestionIndex
    else none

/-- The values read from `app_config.json` (the JSON file is not part of the
sources, so the configuration is a parameter of the model). -/
structure AppConfig where
  costRateOpenai : ℚ
  costRateElevenlabs : ℚ
  maxRecordingMs : Nat
  finalizationMs : Nat
deriving Repr, DecidableEq

/-- `appConfig.costRates[provider]`. -/
def AppConfig.costRate (cfg : AppConfig) : ProviderId → ℚ
  | .openai => cfg.costRateOpenai
  | .elevenlabs => cfg.costRateElevenlabs

/-- `computeScores` of the session store: pick the best transcript
(`finalText || committedText || interimText`), guard on a current question
and a non-empty transcript, run the four scoring stages, store the completed
result, and mark the recording completed once both providers are. -/
def computeScores (cfg : AppConfig) (p : ProviderId) (s : SessionState) :
    SessionState :=
  match getCurrentQuestion s with
  | none => s
  | some q =>
    let result := s.result p
    let transcript := jsOr result.transcript.finalText
      (jsOr result.transcript.committedText result.transcript.interimText)
    if transcript = "" then s
    else
      let expected :=
        match s.selectedChoiceIndex with
        | some i => q.options.getD i ""
        | none => q.expectedSpokenAnswer.getD ""
      let accuracyResult := calculateAccuracy transcript expected
      let fluencyResult := calculateFluency transcript
      let structureResult := calculateStructure transcript q.structureMode q.expectedKeywords
      let overall := calculateOverall (accuracyResult.1 : ℚ) (fluencyResult.1 : ℚ)
        (structureResult.1 : ℚ)
      let metrics : ProviderMetrics :=
        ⟨accuracyResult.1, fluencyResult.1, structureResult.1, overall⟩
      let estimatedCost := cfg.costRate p * (result.durationMs : ℚ) / 60000
      let s2 := s.setResult p
        { result with
          status := .completed,
          fillers := fluencyResult.2.fillers,
          metrics := some metrics,
          breakdown := some ⟨accuracyResult.2, fluencyResult.2, structureResult.2⟩,
          cost := some ⟨"USD", estimatedCost, "estimate"⟩ }
      if (s2.result .openai).status = .completed
          && (s2.result .elevenlabs).status = .completed then
        { s2 with recordingState := .completed }
      else s2

/-! ### Dual STT hook (`useDualSTT.ts`) -/

/-- The mutable state owned by the dual-STT hook together with the session
store it drives.  The boolean fields model the refs (`audioChunkerRef`,
`mediaStreamRef`, pool adapter `isConnected()` observations, whether
`endAudio()` was sent) and `eventCleanups` the number of registered event
listener cleanup functions. -/
structure HookState where
  session : SessionState
  recordingCycle : Nat
  audioChunkerActive : Bool
  mediaStreamActive : Bool
  eventCleanups : Nat
  openaiConnected : Bool
  elevenlabsConnected : Bool
  openaiEndAudioSent : Bool
  elevenlabsEndAudioSent : Bool
deriving Repr, DecidableEq

/-- The synchronous part of the hook `stopRecording`: stop the store,
chunker and microphone, and send `endAudio()` to every connected pool
adapter (the finalization timeout it schedules is `finalizationTimeoutBody`
below, stamped with the cycle read at this moment). -/
def hookStopRecording (now : Int) (h : HookState) : HookState :=
  { h with
    session := storeStopRecording now h.session,
    audioChunkerActive := false,
    mediaStreamActive := false,
    openaiEndAudioSent := h.openaiEndAudioSent || h.openaiConnected,
    elevenlabsEndAudioSent := h.elevenlabsEndAudioSent || h.elevenlabsConnected }

/-- The per-provider block of the finalization timeout body (the source
repeats this block verbatim for each provider): if the snapshot shows the
provider has not completed and `committedText || interimText` is non-empty,
store that fragment as `finalText` and score the provider. -/
def fallbackProvider (cfg : AppConfig) (p : ProviderId)
    (snapshot : ProviderResult) (s : SessionState) : SessionState :=
  if snapshot.status ≠ .completed then
    if jsOr snapshot.transcript.committedText snapshot.transcript.interimText ≠ "" then
      computeScores cfg p
        (updateProviderTranscript p
          { finalText := some (jsOr snapshot.transcript.committedText
              snapshot.transcript.interimText) } s)
    else s
  else s

/-- The body of the finalization timeout scheduled by the hook function
`stopRecording`, stamped with `cycleAtStop`.  A stale stamp returns
immediately; otherwise each provider that has not completed falls back to
its best-known fragment and is scored, the recording is marked completed,
and event listeners are cleaned up.  The snapshot `st` mirrors the single
`useSessionStore.getState()` read at the top of the body (both provider
conditions and fragments are read from it, while updates go to the live
store). -/
def finalizationTimeoutBody (cfg : AppConfig) (cycleAtStop : Nat)
    (h : HookState) : HookState :=
  if h.recordingCycle ≠ cycleAtStop then h
  else
    let st := h.session
    let sessionA := fallbackProvider cfg .openai st.openaiResult h.session
    let sessionB := fallbackProvider cfg .elevenlabs st.elevenlabsResult sessionA
    { h with session := setRecordingCompleted sessionB, eventCleanups := 0 }

/-- The body of the max-recording-duration timeout scheduled by the hook function
`startRecording`, stamped with the cycle `currentCycle` minted by that
`startRecording`: it stops the recording only if the cycle is still current
and the store is still listening. -/
def maxDurationTimeoutBody (currentCycle : Nat) (now : Int) (h : HookState) :
    HookState :=
  if h.recordingCycle = currentCycle && h.session.recordingState = .listening then
    hookStopRecording now h
  else h

/-! ### ElevenLabs realtime adapter (`elevenlabsRealtime.ts`)

The base adapter class (`providers/base.ts`) is not among the sources;
`updateTranscript` is modelled from the spec as the obvious merge of the
explicitly passed transcript fields, and `addError` / `addWordTiming` as
appends. -/

/-- Adapter status; `completed` and `error` are the values assigned by the
embedded handlers. -/
inductive AdapterStatus where
  | idle
  | connecting
  | connected
  | listening
  | processing
  | completed
  | error
deriving Repr, DecidableEq

/-- Word info carried by a `committed_transcript_with_timestamps` event
(`start` and `end` are seconds; `end` is a Lean keyword, hence the names). -/
structure WordInfo where
  word : String
  startSec : ℚ
  endSec : ℚ
  confidence : Option ℚ
deriving Repr, DecidableEq

/-- The per-adapter mutable state relevant to the message handlers. -/
structure ElevenState where
  transcript : Transcript
  status : AdapterStatus
  wordTimings : List WordTiming
  errors : List String
  sessionStarted : Bool
  completedAt : Option Int
deriving Repr, DecidableEq

/-- Fresh adapter state. -/
def initialElevenState : ElevenState where
  transcript := ⟨"", "", ""⟩
  status := .connected
  wordTimings := []
  errors := []
  sessionStarted := false
  completedAt := none

/-- The parsed inbound messages of the ElevenLabs Scribe protocol
(`ElevenLabsEvent`). -/
inductive ElevenMessage where
  | sessionStarted (sessionId : Option String)
  | interimTranscript (text : String)
  | committedTranscript (text : String)
  | committedWithTimestamps (text : String) (words : List WordInfo)
  | errorEvent (messageType : String) (code : Option String)
      (message : Option String) (errorText : Option String)
  | unknown (messageType : String)
deriving Repr, DecidableEq

/-- `processWordTimings`: convert seconds to rounded milliseconds and append
each timing unless an identical `(word, startMs, endMs)` triple is tracked. -/
def processWordTimings (words : List WordInfo) (acc : List WordTiming) :
    List WordTiming :=
  words.foldl
    (fun acc w =>
      let wt : WordTiming :=
        ⟨w.word, jsRound (w.startSec * 1000), jsRound (w.endSec * 1000), w.confidence⟩
      if acc.any fun t => t.word = wt.word && t.startMs = wt.startMs
          && t.endMs = wt.endMs then acc
      else acc ++ [wt])
    acc

/-- One message-handling step of the ElevenLabs adapter, combining
`handleMessage` with the individual handlers.  `committed_transcript` (and
its with-timestamps variant) appends the segment plus a space to
`committedText`, clears `interimText`, overwrites `finalText` with the
segment, and marks the adapter completed. -/
def handleElevenMessage (now : Int) (m : ElevenMessage) (st : ElevenState) :
    ElevenState :=
  match m with
  | .sessionStarted _ => { st with sessionStarted := true }
  | .interimTranscript text =>
    { st with transcript := { st.transcript with interimText := text } }
  | .committedTranscript text =>
    { st with
      transcript :=
        ⟨"", st.transcript.committedText ++ text ++ " ", text⟩,
      status := .completed,
      completedAt := some now }
  | .committedWithTimestamps text words =>
    { st with
      wordTimings :=
        if words.length > 0 then processWordTimings words st.wordTimings
        else st.wordTimings,
      transcript :=
        ⟨"", st.transcript.committedText ++ text ++ " ", text⟩,
      status := .completed,
      completedAt := some now }
  | .errorEvent _ _ message errorText =>
    let errorMessage := (message.orElse fun _ => errorText).getD
      "Unknown ElevenLabs error"
    { st with errors := st.errors ++ [errorMessage], status := .error }
  | .unknown _ => st

/-- Run a sequence of inbound messages within one recording cycle. -/
def runElevenMessages (now : Int) (msgs : List ElevenMessage)
    (st : ElevenState) : ElevenState :=
  msgs.foldl (fun st m => handleElevenMessage now m st) st

/-- How many handler steps of a message trace assign a new value to
`finalText` (the quantity the at-most-once-per-cycle invariant bounds). -/
def finalTextWrites (now : Int) (st : ElevenState) : List ElevenMessage → Nat
  | [] => 0
  | m :: ms =>
    let st2 := handleElevenMessage now m st
    (if st2.transcript.finalText ≠ st.transcript.finalText then 1 else 0)
      + finalTextWrites now st2 ms

/-! ### OpenAI Chat scoring service (`openaiChatScoring.ts`) -/

/-- A chat message sent to the scoring proxy (`ChatMessage`). -/
structure ChatMessage where
  role : String
  content : String
deriving Repr, DecidableEq

/-- A scoring request (`OpenAIScoreRequest`). -/
structure OpenAIScoreRequest where
  transcript : String
  expectedAnswer : String
  scenarioPrompt : String
  structureMode : StructureMode
deriving Repr, DecidableEq

/-- An apostrophe as a string (kept out of string literals). -/
def apos : String :=
  String.mk [Char.ofNat 39]

/-- `formatStructureMode`. -/
def formatStructureMode : StructureMode → String
  | .full => "Full radio transmission (callsigns + message + closing)"
  | .ackShort => "Short acknowledgment format"
  | .clarifyRequest => "Clarification request format"

/-- `buildUserPrompt`. -/
def buildUserPrompt (request : OpenAIScoreRequest) : String :=
  "## EVALUATION REQUEST\n\n### Scenario:\n" ++ request.scenarioPrompt
    ++ "\n\n### Structure Mode: " ++ formatStructureMode request.structureMode
    ++ "\n\n### Expected Response:\n\"" ++ request.expectedAnswer
    ++ "\"\n\n### Trainee" ++ apos ++ "s Actual Response:\n\""
    ++ request.transcript
    ++ "\"\n\nPlease evaluate the trainee" ++ apos
    ++ "s response and provide scores and feedback in the JSON format specified."

/-- What `scoreWithOpenAI` does before any network activity: either return
an immediate result (the empty-transcript guard) or proceed to call the chat
proxy with the built messages. -/
inductive ScoreOutcome where
  | immediate (result : OpenAIScoreResult)
  | networkCall (messages : List ChatMessage)
deriving Repr, DecidableEq

/-- The fixed result returned for an empty or whitespace-only transcript. -/
def emptyTranscriptResult : OpenAIScoreResult where
  accuracy := 0
  fluency := 100
  structureScore := 0
  overall := 15
  feedback := "No response was detected. Please speak your answer clearly."
  fillerWords := []
  fillerCount := 0
  radioProtocolNotes := some "No response provided."

/-- `scoreWithOpenAI`, with the loaded system prompt as a parameter (it is
read from a markdown asset by `promptLoader.ts`). -/
def scoreWithOpenAI (systemPrompt : String) (request : OpenAIScoreRequest) :
    ScoreOutcome :=
  if request.transcript = "" || (jsTrim request.transcript.data).length = 0 then
    .immediate emptyTranscriptResult
  else
    .networkCall [⟨"system", systemPrompt⟩, ⟨"user", buildUserPrompt request⟩]

/-! ## Theorems -/

/-- Clamping to [0,100] is the identity on values already in range. -/
theorem clampQ_eq_self (v : ℚ) (h0 : 0 ≤ v) (h1 : v ≤ 100) :
    clampQ v 0 100 = v := by
  unfold clampQ
  rw [min_eq_right h1, max_eq_right h0]

/-- C1.  For every triple of valid scores in [0,100]³, `calculateOverall`
returns the round of `0.50·accuracy + 0.30·fluency + 0.20·structure`,
clamped to [0,100] (the clamps of the implementation are the identity on
this domain, and the rounded weighted sum already lies in [0,100]). -/
theorem claim_C1 (a f s : ℚ) (ha0 : 0 ≤ a) (ha1 : a ≤ 100)
    (hf0 : 0 ≤ f) (hf1 : f ≤ 100) (hs0 : 0 ≤ s) (hs1 : s ≤ 100) :
    calculateOverall a f s
      = min 100 (max 0 (jsRound (weightAccuracy * a + weightFluency * f
          + weightStructure * s))) := by
  have hwa : weightAccuracy = 1/2 := rfl
  have hwf : weightFluency = 3/10 := rfl
  have hws : weightStructure = 1/5 := rfl
  have hw0 : 0 ≤ weightAccuracy * a + weightFluency * f + weightStructure * s := by
    rw [hwa, hwf, hws]; linarith
  have hw1 : weightAccuracy * a + weightFluency * f + weightStructure * s ≤ 100 := by
    rw [hwa, hwf, hws]; linarith
  have hr0 : (0:ℤ) ≤ jsRound (weightAccuracy * a + weightFluency * f
      + weightStructure * s) := by
    unfold jsRound
    rw [Int.le_floor]
    push_cast
    linarith
  have hr1 : jsRound (weightAccuracy * a + weightFluency * f
      + weightStructure * s) ≤ 100 := by
    unfold jsRound
    have := Int.floor_lt.mpr (show weightAccuracy * a + weightFluency * f
      + weightStructure * s + 1/2 < ((101:ℤ):ℚ) by push_cast; linarith)
    omega
  unfold calculateOverall
  rw [clampQ_eq_self a ha0 ha1, clampQ_eq_self f hf0 hf1, clampQ_eq_self s hs0 hs1]
  dsimp only
  rw [clampQ_eq_self _ hw0 hw1, max_eq_right hr0, min_eq_right hr1]

/-- Witness for C1 at the concrete triple (50, 80, 90). -/
theorem claim_C1_witness :
    calculateOverall 50 80 90
      = min 100 (max 0 (jsRound (weightAccuracy * 50 + weightFluency * 80
          + weightStructure * 90))) :=
  claim_C1 50 80 90 (by norm_num) (by norm_num) (by norm_num) (by norm_num)
    (by norm_num) (by norm_num)

/-- C2.  The fluency score equals `100 − min(50, 5 × fillerCount)` for the
detected filler count; that formula is monotonically non-increasing in the
filler count and never drops below `100 − 50 = 50`. -/
theorem claim_C2 (t : String) :
    (calculateFluency t).1 = specFluencyScore (countTotalFillers (detectFillers t))
      ∧ (∀ m n : Nat, m ≤ n → specFluencyScore n ≤ specFluencyScore m)
      ∧ 50 ≤ (calculateFluency t).1 := by
  refine ⟨?_, ?_, ?_⟩
  · dsimp only [calculateFluency, specFluencyScore]
    push_cast
    omega
  · intro m n hmn
    unfold specFluencyScore
    omega
  · dsimp only [calculateFluency]
    omega

/-- Witness for C2: the formula at a transcript with two fillers, and
monotonicity applied at 1 ≤ 2. -/
theorem claim_C2_witness :
    (calculateFluency "um roger uh").1
        = specFluencyScore (countTotalFillers (detectFillers "um roger uh"))
      ∧ specFluencyScore 2 ≤ specFluencyScore 1 :=
  ⟨(claim_C2 "um roger uh").1, (claim_C2 "um roger uh").2.1 1 2 (by decide)⟩

/-- C3 counterexample.  Normalization is not idempotent: the phrase-variant
collapse runs before punctuation removal and resumes scanning after each
replacement, so a second application of `normalizeRadioTranscript` can
collapse a phrase the first application left behind.  Here
`normalize "roger that that" = "roger that"` but normalizing again yields
`"roger"`. -/
theorem claim_C3_counterexample :
    normalizeRadioTranscript (normalizeRadioTranscript "roger that that")
      ≠ normalizeRadioTranscript "roger that that" := by
  decide

/-- C3 (amended).  Idempotence does not hold for all inputs; it does hold on
the representative radio inputs of the specification, including the end-to-end
example transmissions. -/
theorem claim_C3 :
    (normalizeRadioTranscript (normalizeRadioTranscript "Bowser 1")
        = normalizeRadioTranscript "Bowser 1")
      ∧ (normalizeRadioTranscript (normalizeRadioTranscript "Bowser One")
        = normalizeRadioTranscript "Bowser One")
      ∧ (normalizeRadioTranscript (normalizeRadioTranscript "runway 27")
        = normalizeRadioTranscript "runway 27")
      ∧ (normalizeRadioTranscript (normalizeRadioTranscript "runway two seven")
        = normalizeRadioTranscript "runway two seven")
      ∧ (normalizeRadioTranscript (normalizeRadioTranscript "runway twenty seven")
        = normalizeRadioTranscript "runway twenty seven")
      ∧ (normalizeRadioTranscript (normalizeRadioTranscript "runway 25")
        = normalizeRadioTranscript "runway 25")
      ∧ (normalizeRadioTranscript (normalizeRadioTranscript "Bowser Two")
        = normalizeRadioTranscript "Bowser Two")
      ∧ (normalizeRadioTranscript (normalizeRadioTranscript
            "ATC, Bowser One, request permission to taxi to runway two seven, over.")
        = normalizeRadioTranscript
            "ATC, Bowser One, request permission to taxi to runway two seven, over.")
      ∧ (normalizeRadioTranscript (normalizeRadioTranscript
            "ATC Bowser 1, request permission to taxi to runway 27, over")
        = normalizeRadioTranscript
            "ATC Bowser 1, request permission to taxi to runway 27, over") := by
  decide

/-- C4.  Digit and spoken-word forms normalize identically
(`"Bowser 1"` ≡ `"Bowser One"`, `"runway 27"` ≡ `"runway two seven"`,
`"runway twenty seven"` ≡ `"runway two seven"`) while different numbers
remain distinct. -/
theorem claim_C4 :
    normalizeRadioTranscript "Bowser 1" = normalizeRadioTranscript "Bowser One"
      ∧ normalizeRadioTranscript "runway 27"
        = normalizeRadioTranscript "runway two seven"
      ∧ normalizeRadioTranscript "runway twenty seven"
        = normalizeRadioTranscript "runway two seven"
      ∧ normalizeRadioTranscript "runway 27" ≠ normalizeRadioTranscript "runway 25"
      ∧ normalizeRadioTranscript "Bowser One" ≠ normalizeRadioTranscript "Bowser Two" := by
  decide

/-- The initial state of the pool store. -/
def initialPoolState : PoolState where
  openaiToken := none
  elevenlabsToken := none
  openaiAdapter := false
  elevenlabsAdapter := false
  isInitializing := false
  isReady := false
  error := none
  reconnectAttempts := 0

/-- C6.  When initialization actually runs (it is not skipped by the
re-entrancy or freshness guards), the pool ends up ready iff at least one
provider fetched a token and connected, and the error field is populated iff
no provider connected. -/
theorem claim_C6 (env : PoolEnv) (s : PoolState)
    (h1 : s.isInitializing = false)
    (h2 : s.isReady = false ∨ isTokenExpired env.now s.openaiToken = true
      ∨ isTokenExpired env.now s.elevenlabsToken = true) :
    ((poolInit env s).1.isReady = true ↔
      ((env.openaiTokenResult.isSome = true ∧ env.openaiConnectOk = true)
        ∨ (env.elevenlabsTokenResult.isSome = true ∧ env.elevenlabsConnectOk = true)))
    ∧ ((poolInit env s).1.error.isSome = true ↔ (poolInit env s).1.isReady = false) := by
  have hguard : (s.isReady && !isTokenExpired env.now s.openaiToken
      && !isTokenExpired env.now s.elevenlabsToken) = false := by
    rcases h2 with h | h | h <;> simp [h]
  unfold poolInit
  rw [h1]
  simp only [Bool.false_eq_true, if_false, hguard]
  constructor
  · simp [Bool.or_eq_true, Bool.and_eq_true]
  · by_cases hc : (env.openaiTokenResult.isSome && env.openaiConnectOk
        || env.elevenlabsTokenResult.isSome && env.elevenlabsConnectOk) = true <;>
      simp [hc]

/-- Witness for C6: the OpenAI token fetch fails while ElevenLabs fetches and
connects, starting from the initial pool state — the pool is ready and
error-free. -/
theorem claim_C6_witness :
    ((poolInit ⟨0, none, some ⟨"tok", "wss", 10000000⟩, false, true⟩
        initialPoolState).1.isReady = true ↔
      (((none : Option TokenInfo).isSome = true ∧ false = true)
        ∨ ((some (⟨"tok", "wss", 10000000⟩ : TokenInfo)).isSome = true
            ∧ true = true)))
    ∧ (((poolInit ⟨0, none, some ⟨"tok", "wss", 10000000⟩, false, true⟩
        initialPoolState).1.error.isSome = true) ↔
      ((poolInit ⟨0, none, some ⟨"tok", "wss", 10000000⟩, false, true⟩
        initialPoolState).1.isReady = false)) :=
  claim_C6 ⟨0, none, some ⟨"tok", "wss", 10000000⟩, false, true⟩ initialPoolState
    rfl (Or.inl rfl)

/-- C7.  `initialize` is re-entrant-safe: while a call is in flight it is a
no-op that fetches nothing, and when the pool is ready with both tokens
outside the refresh buffer it is likewise a no-op that fetches nothing. -/
theorem claim_C7 (env : PoolEnv) (s : PoolState) :
    (s.isInitializing = true → poolInit env s = (s, false))
    ∧ (s.isReady = true → isTokenExpired env.now s.openaiToken = false
      → isTokenExpired env.now s.elevenlabsToken = false
      → poolInit env s = (s, false)) := by
  constructor
  · intro h
    unfold poolInit
    rw [h]
    simp
  · intro hready hoa hel
    unfold poolInit
    by_cases hi : s.isInitializing = true
    · rw [hi]; simp
    · rw [Bool.not_eq_true] at hi
      rw [hi]
      simp [hready, hoa, hel]

/-- Witness for C7: an in-flight call and a fresh ready pool are both
no-ops. -/
theorem claim_C7_witness :
    poolInit ⟨0, none, none, false, false⟩
        { initialPoolState with isInitializing := true }
      = ({ initialPoolState with isInitializing := true }, false)
    ∧ poolInit ⟨0, none, none, false, false⟩
        { initialPoolState with
          isReady := true,
          openaiToken := some ⟨"a", "wss", 10000000⟩,
          elevenlabsToken := some ⟨"b", "wss", 10000000⟩ }
      = ({ initialPoolState with
          isReady := true,
          openaiToken := some ⟨"a", "wss", 10000000⟩,
          elevenlabsToken := some ⟨"b", "wss", 10000000⟩ }, false) :=
  ⟨(claim_C7 ⟨0, none, none, false, false⟩
      { initialPoolState with isInitializing := true }).1 rfl,
    (claim_C7 ⟨0, none, none, false, false⟩
      { initialPoolState with
        isReady := true,
        openaiToken := some ⟨"a", "wss", 10000000⟩,
        elevenlabsToken := some ⟨"b", "wss", 10000000⟩ }).2 rfl (by decide) (by decide)⟩

/-- C9 counterexample.  Two `committed_transcript` events within one cycle
each assign a (different) value to `finalText`, so `finalText` is not set at
most once per recording cycle. -/
theorem claim_C9_counterexample :
    ¬ (finalTextWrites 0 initialElevenState
        [ElevenMessage.committedTranscript "alpha",
         ElevenMessage.committedTranscript "bravo"] ≤ 1) := by
  decide

/-- C9 (amended).  Within one recording cycle every adapter event-handling
step only ever appends to `committedText`; `finalText`, however, is
overwritten by every committed-transcript event (it always holds the most
recent committed segment), not set at most once per cycle. -/
theorem claim_C9 (now : Int) (st : ElevenState) :
    (∀ m : ElevenMessage, ∃ suffix : String,
      (handleElevenMessage now m st).transcript.committedText
        = st.transcript.committedText ++ suffix)
    ∧ (∀ text : String,
      (handleElevenMessage now (.committedTranscript text) st).transcript.finalText
        = text)
    ∧ (∀ (text : String) (words : List WordInfo),
      (handleElevenMessage now (.committedWithTimestamps text words)
        st).transcript.finalText = text) := by
  refine ⟨?_, fun _ => rfl, fun _ _ => rfl⟩
  intro m
  cases m with
  | committedTranscript text =>
    exact ⟨text ++ " ", by simp [handleElevenMessage, String.append_assoc]⟩
  | committedWithTimestamps text words =>
    exact ⟨text ++ " ", by simp [handleElevenMessage, String.append_assoc]⟩
  | sessionStarted sid => exact ⟨"", by simp [handleElevenMessage]⟩
  | interimTranscript text => exact ⟨"", by simp [handleElevenMessage]⟩
  | errorEvent a b c d => exact ⟨"", by simp [handleElevenMessage]⟩
  | unknown a => exact ⟨"", by simp [handleElevenMessage]⟩

/-- C10.  For an empty or whitespace-only transcript, `scoreWithOpenAI`
returns the fixed immediate result (accuracy 0, fluency 100, structure 0,
overall 15, fixed feedback, no fillers) without reaching the network call,
and its overall of 15 differs from the weighted combination
`calculateOverall 0 100 0 = 30` of its own components. -/
theorem claim_C10 (systemPrompt : String) (request : OpenAIScoreRequest)
    (h : jsTrim request.transcript.data = []) :
    scoreWithOpenAI systemPrompt request = .immediate emptyTranscriptResult
    ∧ emptyTranscriptResult.overall = 15
    ∧ calculateOverall (emptyTranscriptResult.accuracy : ℚ)
        (emptyTranscriptResult.fluency : ℚ)
        (emptyTranscriptResult.structureScore : ℚ) = 30
    ∧ emptyTranscriptResult.overall ≠ 30 := by
  refine ⟨?_, rfl, ?_, by decide⟩
  · unfold scoreWithOpenAI
    rw [h]
    simp
  · show calculateOverall ((0:ℤ):ℚ) ((100:ℤ):ℚ) ((0:ℤ):ℚ) = 30
    norm_num [calculateOverall, clampQ, jsRound, weightAccuracy, weightFluency,
      weightStructure]

/-- Witness for C10 at the whitespace-only transcript `"   "`. -/
theorem claim_C10_witness :
    scoreWithOpenAI "prompt" ⟨"   ", "expected", "scenario", .full⟩
        = .immediate emptyTranscriptResult
    ∧ emptyTranscriptResult.overall = 15
    ∧ calculateOverall (emptyTranscriptResult.accuracy : ℚ)
        (emptyTranscriptResult.fluency : ℚ)
        (emptyTranscriptResult.structureScore : ℚ) = 30
    ∧ emptyTranscriptResult.overall ≠ 30 :=
  claim_C10 "prompt" ⟨"   ", "expected", "scenario", .full⟩ (by decide)

/-- Writing a provider slot and reading the same slot yields the new value. -/
theorem setResult_result_self (s : SessionState) (p : ProviderId)
    (r : ProviderResult) : (s.setResult p r).result p = r := by
  cases p <;> rfl

/-- Changing `recordingState` does not change either provider slot. -/
theorem result_withRecordingState (s : SessionState) (v : RecordingState)
    (p : ProviderId) :
    (SessionState.result { s with recordingState := v } p) = s.result p := by
  cases p <;> rfl

/-- `getCurrentQuestion` only reads the bank and the index. -/
theorem getCurrentQuestion_congr (s s' : SessionState)
    (hb : s'.questionBank = s.questionBank)
    (hi : s'.currentQuestionIndex = s.currentQuestionIndex) :
    getCurrentQuestion s' = getCurrentQuestion s := by
  unfold getCurrentQuestion
  rw [hb, hi]

/-- `updateProviderTranscript` keeps the current question. -/
theorem getCurrentQuestion_updateProviderTranscript (p : ProviderId)
    (u : TranscriptUpdate) (s : SessionState) :
    getCurrentQuestion (updateProviderTranscript p u s) = getCurrentQuestion s := by
  refine getCurrentQuestion_congr s _ ?_ ?_ <;> cases p <;> rfl

/-- `updateProviderTranscript` merges the partial update into the targeted
provider slot. -/
theorem updateProviderTranscript_result_self (p : ProviderId)
    (u : TranscriptUpdate) (s : SessionState) :
    (updateProviderTranscript p u s).result p
      = { s.result p with transcript := (s.result p).transcript.merge u } := by
  cases p <;> rfl

/-- `computeScores` never touches the other provider slot. -/
theorem computeScores_result_other (cfg : AppConfig) (p p' : ProviderId)
    (hne : p ≠ p') (s : SessionState) :
    (computeScores cfg p s).result p' = s.result p' := by
  unfold computeScores
  cases hq : getCurrentQuestion s
  · rfl
  · dsimp only
    split_ifs <;>
      cases p <;> cases p' <;> simp_all <;> rfl

/-- `computeScores` keeps the current question. -/
theorem getCurrentQuestion_computeScores (cfg : AppConfig) (p : ProviderId)
    (s : SessionState) :
    getCurrentQuestion (computeScores cfg p s) = getCurrentQuestion s := by
  unfold computeScores
  cases hq : getCurrentQuestion s
  · exact hq
  · dsimp only
    split_ifs <;>
      first
      | exact hq
      | exact (getCurrentQuestion_congr s _ (by cases p <;> rfl)
          (by cases p <;> rfl)).trans hq

/-- When a current question exists and the targeted provider already holds a
non-empty `finalText`, `computeScores` marks that provider completed with
some metrics and leaves its transcript unchanged. -/
theorem computeScores_self (cfg : AppConfig) (p : ProviderId) (s : SessionState)
    (q : Question) (hq : getCurrentQuestion s = some q)
    (hf : (s.result p).transcript.finalText ≠ "") :
    ((computeScores cfg p s).result p).status = .completed
    ∧ ((computeScores cfg p s).result p).transcript = (s.result p).transcript
    ∧ ((computeScores cfg p s).result p).metrics.isSome = true := by
  unfold computeScores
  rw [hq]
  dsimp only
  have ht : jsOr (s.result p).transcript.finalText
      (jsOr (s.result p).transcript.committedText (s.result p).transcript.interimText)
      = (s.result p).transcript.finalText := by
    unfold jsOr
    rw [if_neg hf]
  rw [ht, if_neg hf]
  split_ifs <;> simp [result_withRecordingState, setResult_result_self]

/-- `updateProviderTranscript` never touches the other provider slot. -/
theorem updateProviderTranscript_result_other (p p' : ProviderId) (hne : p ≠ p')
    (u : TranscriptUpdate) (s : SessionState) :
    (updateProviderTranscript p u s).result p' = s.result p' := by
  cases p <;> cases p' <;> first | rfl | exact absurd rfl hne

/-- The per-provider fallback block never touches the other provider slot. -/
theorem fallbackProvider_result_other (cfg : AppConfig) (p p' : ProviderId)
    (hne : p ≠ p') (snap : ProviderResult) (s : SessionState) :
    (fallbackProvider cfg p snap s).result p' = s.result p' := by
  unfold fallbackProvider
  split_ifs <;> try rfl
  rw [computeScores_result_other cfg p p' hne,
    updateProviderTranscript_result_other p p' hne]

/-- The per-provider fallback block keeps the current question. -/
theorem getCurrentQuestion_fallbackProvider (cfg : AppConfig) (p : ProviderId)
    (snap : ProviderResult) (s : SessionState) :
    getCurrentQuestion (fallbackProvider cfg p snap s) = getCurrentQuestion s := by
  unfold fallbackProvider
  split_ifs <;> try rfl
  rw [getCurrentQuestion_computeScores, getCurrentQuestion_updateProviderTranscript]

/-- When the snapshot shows a non-completed provider with a non-empty
fragment, the fallback block stores the fragment as `finalText` and scores
the provider to completed status with metrics. -/
theorem fallbackProvider_self (cfg : AppConfig) (p : ProviderId)
    (snap : ProviderResult) (s : SessionState) (q : Question)
    (hq : getCurrentQuestion s = some q)
    (hs : snap.status ≠ .completed)
    (hf : jsOr snap.transcript.committedText snap.transcript.interimText ≠ "") :
    ((fallbackProvider cfg p snap s).result p).transcript.finalText
        = jsOr snap.transcript.committedText snap.transcript.interimText
    ∧ ((fallbackProvider cfg p snap s).result p).status = .completed
    ∧ ((fallbackProvider cfg p snap s).result p).metrics.isSome = true := by
  unfold fallbackProvider
  rw [if_pos hs, if_pos hf]
  have hq' : getCurrentQuestion (updateProviderTranscript p
      { finalText := some (jsOr snap.transcript.committedText
          snap.transcript.interimText) } s) = some q :=
    (getCurrentQuestion_updateProviderTranscript p _ s).trans hq
  have hf' : ((updateProviderTranscript p
      { finalText := some (jsOr snap.transcript.committedText
          snap.transcript.interimText) } s).result p).transcript.finalText
      = jsOr snap.transcript.committedText snap.transcript.interimText := by
    rw [updateProviderTranscript_result_self]
    rfl
  have h3 := computeScores_self cfg p _ q hq' (by rw [hf']; exact hf)
  exact ⟨by rw [h3.2.1, hf'], h3.1, h3.2.2⟩

/-- `setRecordingCompleted` does not change either provider slot. -/
theorem result_setRecordingCompleted (s : SessionState) (p : ProviderId) :
    (setRecordingCompleted s).result p = s.result p := by
  cases p <;> rfl

/-- C5.  A timeout callback stamped with a recording-cycle id older than the
current cycle leaves the state unchanged: both the finalization timeout body
of `stopRecording` and the max-duration timeout body of `startRecording` are
the identity when the cycle has advanced past their stamp. -/
theorem claim_C5 (cfg : AppConfig) (c : Nat) (now : Int) (h : HookState)
    (hstale : c < h.recordingCycle) :
    finalizationTimeoutBody cfg c h = h ∧ maxDurationTimeoutBody c now h = h := by
  have hne : h.recordingCycle ≠ c := Nat.ne_of_gt hstale
  constructor
  · unfold finalizationTimeoutBody
    rw [if_pos hne]
  · unfold maxDurationTimeoutBody
    simp [hne]

/-- A recording state mid-finalization used to witness C5 and C8: one
question loaded, OpenAI holding committed text, ElevenLabs holding only
interim text, neither completed. -/
def sampleQuestion : Question :=
  ⟨"Request taxi clearance.", ["a", "b", "c", "d"], 0, some "roger", .full, none⟩

/-- A session in cycle 1 whose providers have not completed. -/
def sampleSession : SessionState where
  questionBank := some ⟨[sampleQuestion]⟩
  currentQuestionIndex := 0
  selectedChoiceIndex := none
  recordingState := .processing
  recordingDurationMs := 1200
  recordingStartTime := none
  openaiResult := { createInitialProviderResult with
    status := .processing, transcript := ⟨"", "roger", ""⟩ }
  elevenlabsResult := { createInitialProviderResult with
    status := .listening, transcript := ⟨"wilco", "", ""⟩ }
  testMode := .readAloud
  openEndedResult := none
  isAIScoring := false

/-- The hook state wrapping `sampleSession` in recording cycle 1. -/
def sampleHook : HookState :=
  ⟨sampleSession, 1, false, false, 2, true, true, true, true⟩

/-- A sample configuration. -/
def sampleCfg : AppConfig :=
  ⟨6/1000, 4/1000, 30000, 2000⟩

/-- Witness for C5: the stale stamp 0 against current cycle 1 leaves the
hook state untouched. -/
theorem claim_C5_witness :
    finalizationTimeoutBody sampleCfg 0 sampleHook = sampleHook
    ∧ maxDurationTimeoutBody 0 99 sampleHook = sampleHook :=
  claim_C5 sampleCfg 0 99 sampleHook (by decide)

/-- C8.  On a finalization timeout whose stamp is the current cycle, every
provider that has not completed and holds a fragment
(`committedText || interimText`, i.e. committed text if non-empty, otherwise
interim text) gets that fragment stored as its final transcript and is
scored to completed status with metrics, and the recording finishes as
completed rather than failing. -/
theorem claim_C8 (cfg : AppConfig) (h : HookState) (q : Question)
    (hq : getCurrentQuestion h.session = some q) :
    (h.session.openaiResult.status ≠ .completed →
      jsOr h.session.openaiResult.transcript.committedText
          h.session.openaiResult.transcript.interimText ≠ "" →
      (((finalizationTimeoutBody cfg h.recordingCycle h).session.result
            .openai).transcript.finalText
          = jsOr h.session.openaiResult.transcript.committedText
              h.session.openaiResult.transcript.interimText
        ∧ ((finalizationTimeoutBody cfg h.recordingCycle h).session.result
            .openai).status = .completed
        ∧ ((finalizationTimeoutBody cfg h.recordingCycle h).session.result
            .openai).metrics.isSome = true))
    ∧ (h.session.elevenlabsResult.status ≠ .completed →
      jsOr h.session.elevenlabsResult.transcript.committedText
          h.session.elevenlabsResult.transcript.interimText ≠ "" →
      (((finalizationTimeoutBody cfg h.recordingCycle h).session.result
            .elevenlabs).transcript.finalText
          = jsOr h.session.elevenlabsResult.transcript.committedText
              h.session.elevenlabsResult.transcript.interimText
        ∧ ((finalizationTimeoutBody cfg h.recordingCycle h).session.result
            .elevenlabs).status = .completed
        ∧ ((finalizationTimeoutBody cfg h.recordingCycle h).session.result
            .elevenlabs).metrics.isSome = true))
    ∧ (finalizationTimeoutBody cfg h.recordingCycle h).session.recordingState
        = .completed := by
  have hbody : finalizationTimeoutBody cfg h.recordingCycle h
      = { h with
          session := setRecordingCompleted
            (fallbackProvider cfg .elevenlabs h.session.elevenlabsResult
              (fallbackProvider cfg .openai h.session.openaiResult h.session)),
          eventCleanups := 0 } := by
    unfold finalizationTimeoutBody
    rw [if_neg fun hne => hne rfl]
  rw [hbody]
  dsimp only
  refine ⟨?_, ?_, rfl⟩
  · intro ho hf
    rw [result_setRecordingCompleted,
      fallbackProvider_result_other cfg .elevenlabs .openai (by decide)]
    exact fallbackProvider_self cfg .openai h.session.openaiResult h.session q
      hq ho hf
  · intro he hf
    rw [result_setRecordingCompleted]
    exact fallbackProvider_self cfg .elevenlabs h.session.elevenlabsResult _ q
      ((getCurrentQuestion_fallbackProvider cfg .openai _ _).trans hq) he hf

/-- Witness for C8 on `sampleHook`: OpenAI falls back to its committed text,
ElevenLabs to its interim text, and the recording completes. -/
theorem claim_C8_witness :
    (((finalizationTimeoutBody sampleCfg sampleHook.recordingCycle
          sampleHook).session.result .openai).transcript.finalText
        = jsOr sampleSession.openaiResult.transcript.committedText
            sampleSession.openaiResult.transcript.interimText)
    ∧ (((finalizationTimeoutBody sampleCfg sampleHook.recordingCycle
          sampleHook).session.result .elevenlabs).transcript.finalText
        = jsOr sampleSession.elevenlabsResult.transcript.committedText
            sampleSession.elevenlabsResult.transcript.interimText)
    ∧ (finalizationTimeoutBody sampleCfg sampleHook.recordingCycle
        sampleHook).session.recordingState = .completed :=
  ⟨((claim_C8 sampleCfg sampleHook sampleQuestion (by decide)).1
      (by decide) (by decide)).1,
   ((claim_C8 sampleCfg sampleHook sampleQuestion (by decide)).2.1
      (by decide) (by decide)).1,
   (claim_C8 sampleCfg sampleHook sampleQuestion (by decide)).2.2⟩

end RADStrat
